import Mathlib

/-!
# Ethermint EVM module: v4 parameter set and benchmark transaction builder

A shallow embedding of

* `x/evm/migrations/v4/types/params.go` (the versioned parameter set, its
  validators and the London fork gate), and
* `newSignedEthTx` of `x/evm/keeper/state_transition_benchmark_test.go`
  (the transaction-variant builder).

Go conventions used throughout:

* a Go `error` result is `Except Err Unit`; `.ok ()` is the `nil` error;
* a nullable `*big.Int` / `*sdk.Int` is `Option Int`;
* an `interface{}` argument is a `Value`, tagged with its dynamic type
  (a pointer handed in as `interface{}` is `Value.ptr`);
* `fmt.Errorf` messages are kept as structured `Err` constructors that carry
  the values the message formats.
-/

namespace Ethermint

/-! ## Errors -/

/-- Errors produced by the embedded code, one constructor per message. -/
inductive Err where
  /-- Error of `sdk.ValidateDenom`: "invalid denom: %s". -/
  | invalidDenom (denom : String)
  /-- Error of `validateEVMDenom`: "invalid parameter EVM denom type: %T". -/
  | invalidDenomType (goType : String)
  /-- Error of `validateBool`: "invalid parameter type: %T". -/
  | invalidParamType (goType : String)
  /-- Error of `validateEIPs`: "invalid EIP slice type: %T". -/
  | invalidEIPType (goType : String)
  /-- Error of `validateEIPs`: "EIP %d is not activateable, valid EIPS are: %s". -/
  | eipNotActivateable (eip : Int)
  /-- Error of `validateChainConfig`: "invalid chain config type: %T". -/
  | invalidChainConfigType (goType : String)
  /-- Chain configuration: "block value cannot be negative", wrapped with the field name. -/
  | negativeBlock (field : String) (block : Int)
  /-- Chain configuration: "hash cannot be blank". -/
  | blankHash
  /-- Fork order: an earlier fork is not enabled but a later one is. -/
  | forkNotEnabled (last : String) (cur : String) (curBlock : Int)
  /-- Fork order: an earlier fork is enabled at a higher block than a later one. -/
  | forkOrder (last : String) (lastBlock : Int) (cur : String) (curBlock : Int)
  /-- Error of `newSignedEthTx`: "unknown transaction type!". -/
  | unknownTxType
  /-- Any error returned by an external collaborator (keyring, signer). -/
  | external (msg : String)
  deriving DecidableEq, Repr

deriving instance DecidableEq for Except

/-! ## Denomination check (`sdk.ValidateDenom`) -/

/-- Modelled from the spec: first character of the denomination syntax of the
cosmos-sdk (not under src/), an ASCII letter. -/
def isDenomStart (c : Char) : Bool :=
  ('a' ≤ c && c ≤ 'z') || ('A' ≤ c && c ≤ 'Z')

/-- Modelled from the spec: character of the denomination syntax of the
cosmos-sdk (not under src/): letter, digit, or one of `/ : . _ -`. -/
def isDenomChar (c : Char) : Bool :=
  isDenomStart c || ('0' ≤ c && c ≤ '9') ||
    c == '/' || c == ':' || c == '.' || c == '_' || c == '-'

/-- Modelled from the spec: the token-denomination syntax check is
`sdk.ValidateDenom` of the cosmos-sdk, which is not under src/.  The spec
only calls it a "token-denomination syntax check" that rejects the empty
string and invalid characters; the model is the sdk's rule, a letter followed
by 2 to 127 characters of the denomination syntax (3 to 128 in total),
matched against the whole string, character by character. -/
def matchDenom (denom : String) : Bool :=
  match denom.data with
  | [] => false
  | c :: rest =>
    isDenomStart c && decide (2 ≤ rest.length) && decide (rest.length ≤ 127) &&
      rest.all isDenomChar

/-- Modelled from the spec: `sdk.ValidateDenom` (not under src/), the
denomination rule of `matchDenom` with the sdk's "invalid denom" error. -/
def ValidateDenom (denom : String) : Except Err Unit :=
  if matchDenom denom then .ok () else .error (.invalidDenom denom)

/-! ## Activateable EIPs (`vm.ValidEip`) -/

/-- Go's `AvailableExtraEIPs`: the list of all EIPs that can be enabled by the
EVM interpreter. -/
def AvailableExtraEIPs : List Int := [1344, 1884, 2200, 2929, 3198, 3529]

/-- Modelled from the spec: the activator table of go-ethereum's `vm`
package is not under src/.  The spec calls it "the fixed set of activateable
capabilities known to the virtual machine"; params.go documents
`AvailableExtraEIPs` as the list of all EIPs the interpreter can enable, so
the table's keys are modelled as that list. -/
def activators : List Int := [3529, 3198, 2929, 2200, 1884, 1344]

/-- Modelled from the spec: `vm.ValidEip` (go-ethereum, not under src/),
membership of the EIP number in the activator table. -/
def ValidEip (eipNum : Int) : Bool := activators.contains eipNum

/-! ## Chain configuration -/

/-- Modelled from the spec: go-ethereum's `params.ChainConfig` (not under
src/), the "ordered schedule of (capability-or-fork-name → activation
height)" of the spec; a `nil` block means the fork is not scheduled. -/
structure ChainConfig where
  ChainID : Option Int
  HomesteadBlock : Option Int
  DAOForkBlock : Option Int
  DAOForkSupport : Bool
  EIP150Block : Option Int
  EIP150Hash : String
  EIP155Block : Option Int
  EIP158Block : Option Int
  ByzantiumBlock : Option Int
  ConstantinopleBlock : Option Int
  PetersburgBlock : Option Int
  IstanbulBlock : Option Int
  MuirGlacierBlock : Option Int
  BerlinBlock : Option Int
  LondonBlock : Option Int
  ArrowGlacierBlock : Option Int
  GrayGlacierBlock : Option Int
  MergeNetsplitBlock : Option Int
  ShanghaiBlock : Option Int
  CancunBlock : Option Int
  deriving DecidableEq, Repr

/-- Modelled from the spec: the type `V4ChainConfig` is declared in this
repository outside src/.  The spec describes it as the embedded "fork-height
schedule", "an ordered schedule of (capability-or-fork-name → activation
height)"; each height is a nullable `sdk.Int`. -/
structure V4ChainConfig where
  HomesteadBlock : Option Int
  DAOForkBlock : Option Int
  DAOForkSupport : Bool
  EIP150Block : Option Int
  EIP150Hash : String
  EIP155Block : Option Int
  EIP158Block : Option Int
  ByzantiumBlock : Option Int
  ConstantinopleBlock : Option Int
  PetersburgBlock : Option Int
  IstanbulBlock : Option Int
  MuirGlacierBlock : Option Int
  BerlinBlock : Option Int
  LondonBlock : Option Int
  ArrowGlacierBlock : Option Int
  GrayGlacierBlock : Option Int
  MergeNetsplitBlock : Option Int
  ShanghaiBlock : Option Int
  CancunBlock : Option Int
  deriving DecidableEq, Repr

/-- Modelled from the spec: per-height rule of the chain-configuration
validator (not under src/): an unset height is accepted, a negative one is
rejected under the name of its field. -/
def validateBlock (field : String) (block : Option Int) : Except Err Unit :=
  match block with
  | none => .ok ()
  | some b => if b < 0 then .error (.negativeBlock field b) else .ok ()

/-- Modelled from the spec: the white space `strings.TrimSpace` of Go's
library removes (tab, line feed, vertical tab, form feed, carriage return,
blank, and the Unicode spaces), by code point. -/
def isGoSpace (c : Char) : Bool :=
  c.toNat == 9 || c.toNat == 10 || c.toNat == 11 || c.toNat == 12 || c.toNat == 13 ||
    c.toNat == 32 || c.toNat == 0x85 || c.toNat == 0xA0 || c.toNat == 0x1680 ||
    (0x2000 ≤ c.toNat && c.toNat ≤ 0x200A) || c.toNat == 0x2028 || c.toNat == 0x2029 ||
    c.toNat == 0x202F || c.toNat == 0x205F || c.toNat == 0x3000

/-- Modelled from the spec: hash rule of the chain-configuration validator
(not under src/): a non-empty hash made only of white space is rejected. -/
def validateHash (hex : String) : Except Err Unit :=
  if hex.data ≠ [] ∧ hex.data.all isGoSpace then .error .blankHash else .ok ()

/-- Modelled from the spec: conversion of a height to go-ethereum's form
(not under src/): unset and negative heights become `nil`. -/
def getBlockValue (block : Option Int) : Option Int :=
  match block with
  | none => none
  | some b => if b < 0 then none else some b

/-- Modelled from the spec: `V4ChainConfig.EthereumConfig` (not under src/),
the go-ethereum view of the schedule for a given chain id. -/
def V4ChainConfig.EthereumConfig (cc : V4ChainConfig) (chainID : Option Int) : ChainConfig :=
  { ChainID := chainID
    HomesteadBlock := getBlockValue cc.HomesteadBlock
    DAOForkBlock := getBlockValue cc.DAOForkBlock
    DAOForkSupport := cc.DAOForkSupport
    EIP150Block := getBlockValue cc.EIP150Block
    EIP150Hash := cc.EIP150Hash
    EIP155Block := getBlockValue cc.EIP155Block
    EIP158Block := getBlockValue cc.EIP158Block
    ByzantiumBlock := getBlockValue cc.ByzantiumBlock
    ConstantinopleBlock := getBlockValue cc.ConstantinopleBlock
    PetersburgBlock := getBlockValue cc.PetersburgBlock
    IstanbulBlock := getBlockValue cc.IstanbulBlock
    MuirGlacierBlock := getBlockValue cc.MuirGlacierBlock
    BerlinBlock := getBlockValue cc.BerlinBlock
    LondonBlock := getBlockValue cc.LondonBlock
    ArrowGlacierBlock := getBlockValue cc.ArrowGlacierBlock
    GrayGlacierBlock := getBlockValue cc.GrayGlacierBlock
    MergeNetsplitBlock := getBlockValue cc.MergeNetsplitBlock
    ShanghaiBlock := getBlockValue cc.ShanghaiBlock
    CancunBlock := getBlockValue cc.CancunBlock }

/-- Modelled from the spec: one entry of the fork schedule walked by
go-ethereum's fork-order check (not under src/). -/
structure Fork where
  name : String
  block : Option Int
  /-- An optional fork may be unset while a later fork is scheduled. -/
  optional : Bool
  deriving DecidableEq, Repr

/-- Modelled from the spec: the fork schedule of a go-ethereum chain
configuration (not under src/), in activation order. -/
def ChainConfig.forks (c : ChainConfig) : List Fork :=
  [ ⟨"homesteadBlock", c.HomesteadBlock, false⟩,
    ⟨"daoForkBlock", c.DAOForkBlock, true⟩,
    ⟨"eip150Block", c.EIP150Block, false⟩,
    ⟨"eip155Block", c.EIP155Block, false⟩,
    ⟨"eip158Block", c.EIP158Block, false⟩,
    ⟨"byzantiumBlock", c.ByzantiumBlock, false⟩,
    ⟨"constantinopleBlock", c.ConstantinopleBlock, false⟩,
    ⟨"petersburgBlock", c.PetersburgBlock, false⟩,
    ⟨"istanbulBlock", c.IstanbulBlock, false⟩,
    ⟨"muirGlacierBlock", c.MuirGlacierBlock, true⟩,
    ⟨"berlinBlock", c.BerlinBlock, false⟩,
    ⟨"londonBlock", c.LondonBlock, false⟩,
    ⟨"arrowGlacierBlock", c.ArrowGlacierBlock, true⟩,
    ⟨"grayGlacierBlock", c.GrayGlacierBlock, true⟩,
    ⟨"mergeNetsplitBlock", c.MergeNetsplitBlock, true⟩,
    ⟨"shanghaiBlock", c.ShanghaiBlock, true⟩,
    ⟨"cancunBlock", c.CancunBlock, true⟩ ]

/-- Modelled from the spec: one step of go-ethereum's fork-order check (not
under src/): the later fork may not be scheduled when the last fork kept is
not, nor at a lower height ("monotonically non-decreasing fork heights"). -/
def checkForkPair (lastFork : Option Fork) (cur : Fork) : Except Err Unit :=
  match lastFork with
  | none => .ok ()
  | some l =>
    match l.block, cur.block with
    | none, some c => .error (.forkNotEnabled l.name cur.name c)
    | some b, some c => if b > c then .error (.forkOrder l.name b cur.name c) else .ok ()
    | _, none => .ok ()

/-- Modelled from the spec: loop of go-ethereum's fork-order check (not under
src/); `lastFork` is the last fork that was kept (`none` before the first
one), and an optional fork that is unset is not kept. -/
def checkForkOrderFrom (lastFork : Option Fork) : List Fork → Except Err Unit
  | [] => .ok ()
  | cur :: rest =>
    match checkForkPair lastFork cur with
    | .error e => .error e
    | .ok () =>
      checkForkOrderFrom (if !cur.optional || cur.block.isSome then some cur else lastFork) rest

/-- Modelled from the spec: go-ethereum's `CheckConfigForkOrder` (not under
src/), the "monotonically non-decreasing fork heights" rule of the spec. -/
def ChainConfig.CheckConfigForkOrder (c : ChainConfig) : Except Err Unit :=
  checkForkOrderFrom none c.forks

/-- Modelled from the spec: `V4ChainConfig.Validate` is declared in this
repository outside src/.  The spec: "the embedded chain configuration is
internally consistent (monotonically non-decreasing fork heights, etc.,
delegated to its own validator)".  The model checks every height, the
EIP-150 hash, then the fork order, and returns the first error. -/
def V4ChainConfig.Validate (cc : V4ChainConfig) : Except Err Unit := do
  validateBlock "homesteadBlock" cc.HomesteadBlock
  validateBlock "daoForkBlock" cc.DAOForkBlock
  validateBlock "eip150Block" cc.EIP150Block
  validateHash cc.EIP150Hash
  validateBlock "eip155Block" cc.EIP155Block
  validateBlock "eip158Block" cc.EIP158Block
  validateBlock "byzantiumBlock" cc.ByzantiumBlock
  validateBlock "constantinopleBlock" cc.ConstantinopleBlock
  validateBlock "petersburgBlock" cc.PetersburgBlock
  validateBlock "istanbulBlock" cc.IstanbulBlock
  validateBlock "muirGlacierBlock" cc.MuirGlacierBlock
  validateBlock "berlinBlock" cc.BerlinBlock
  validateBlock "londonBlock" cc.LondonBlock
  validateBlock "arrowGlacierBlock" cc.ArrowGlacierBlock
  validateBlock "grayGlacierBlock" cc.GrayGlacierBlock
  validateBlock "mergeNetsplitBlock" cc.MergeNetsplitBlock
  validateBlock "shanghaiBlock" cc.ShanghaiBlock
  validateBlock "cancunBlock" cc.CancunBlock
  (cc.EthereumConfig none).CheckConfigForkOrder

/-- Modelled from the spec: `DefaultChainConfig` is declared in this
repository outside src/; the spec names it only as the "default chain
configuration".  The model schedules every fork at height 0, with DAO-fork
support and the zero EIP-150 hash. -/
def DefaultChainConfig : V4ChainConfig :=
  { HomesteadBlock := some 0
    DAOForkBlock := some 0
    DAOForkSupport := true
    EIP150Block := some 0
    EIP150Hash := "0x0000000000000000000000000000000000000000000000000000000000000000"
    EIP155Block := some 0
    EIP158Block := some 0
    ByzantiumBlock := some 0
    ConstantinopleBlock := some 0
    PetersburgBlock := some 0
    IstanbulBlock := some 0
    MuirGlacierBlock := some 0
    BerlinBlock := some 0
    LondonBlock := some 0
    ArrowGlacierBlock := some 0
    GrayGlacierBlock := some 0
    MergeNetsplitBlock := some 0
    ShanghaiBlock := some 0
    CancunBlock := some 0 }

/-! ## The parameter set (`params.go`) -/

/-- Go's `V4ExtraEIPs` (its declaration is generated code outside src/; the
one field `EIPs`, a slice of `int64`, is read off `V4Params.EIPs` and
`validateEIPs`). -/
structure V4ExtraEIPs where
  EIPs : List Int
  deriving DecidableEq, Repr

/-- Go's `V4Params`: the versioned parameter set (its declaration is
generated code outside src/; the six fields are those `NewParams` sets). -/
structure V4Params where
  EvmDenom : String
  EnableCreate : Bool
  EnableCall : Bool
  V4ExtraEIPs : V4ExtraEIPs
  V4ChainConfig : V4ChainConfig
  AllowUnprotectedTxs : Bool
  deriving DecidableEq, Repr

/-- Modelled from the spec: the constant `types.AttoPhoton` is declared in
this repository outside src/; it is the "default denomination" of the spec,
the base denomination of the Ethermint token. -/
def AttoPhoton : String := "aphoton"

/-- Go's `DefaultEVMDenom`: the default EVM denomination on Ethermint. -/
def DefaultEVMDenom : String := AttoPhoton

/-- Go's `DefaultAllowUnprotectedTxs`: rejects all unprotected txs. -/
def DefaultAllowUnprotectedTxs : Bool := false

/-- Go's `DefaultEnableCreate`. -/
def DefaultEnableCreate : Bool := true

/-- Go's `DefaultEnableCall`. -/
def DefaultEnableCall : Bool := true

/-- Go's `DefaultExtraEIPs = V4ExtraEIPs{AvailableExtraEIPs}`: the positional
literal sets the only field, `EIPs`, to the list `AvailableExtraEIPs`. -/
def DefaultExtraEIPs : V4ExtraEIPs := ⟨AvailableExtraEIPs⟩

/-- Go's `NewParams`: creates a new parameter set from its arguments. -/
def NewParams (evmDenom : String) (allowUnprotectedTxs enableCreate enableCall : Bool)
    (config : V4ChainConfig) (extraEIPs : V4ExtraEIPs) : V4Params :=
  { EvmDenom := evmDenom
    AllowUnprotectedTxs := allowUnprotectedTxs
    EnableCreate := enableCreate
    EnableCall := enableCall
    V4ExtraEIPs := extraEIPs
    V4ChainConfig := config }

/-- Go's `DefaultParams`: the default evm parameters. -/
def DefaultParams : V4Params :=
  { EvmDenom := DefaultEVMDenom
    EnableCreate := DefaultEnableCreate
    EnableCall := DefaultEnableCall
    V4ChainConfig := DefaultChainConfig
    V4ExtraEIPs := DefaultExtraEIPs
    AllowUnprotectedTxs := DefaultAllowUnprotectedTxs }

/-- A Go `interface{}` value handed to a validator, tagged with its dynamic
type.  `ptr v` is a (non-nil) pointer to the value `v`, such as `&p.EvmDenom`;
`other` stands for a value of any further type, named as `%T` prints it. -/
inductive Value where
  /-- The `nil` interface. -/
  | nil
  | str (s : String)
  | bool (b : Bool)
  | int64 (n : Int)
  | eips (e : V4ExtraEIPs)
  | cfg (c : V4ChainConfig)
  | params (p : V4Params)
  /-- A pointer to a value: its dynamic type is the pointer type. -/
  | ptr (v : Value)
  | other (goType : String)
  deriving DecidableEq, Repr

/-- What `%T` prints for a value: the name of its dynamic type. -/
def Value.goType : Value → String
  | .nil => "<nil>"
  | .str _ => "string"
  | .bool _ => "bool"
  | .int64 _ => "int64"
  | .eips _ => "types.V4ExtraEIPs"
  | .cfg _ => "types.V4ChainConfig"
  | .params _ => "types.V4Params"
  | .ptr v => "*" ++ v.goType
  | .other t => t

/-- Modelled from the spec: the dereference the external parameter store
(cosmos-sdk, not under src/) applies to a pair's value before it runs the
pair's validator, `reflect.Indirect(reflect.ValueOf(pair.Value)).Interface()`:
a pointer gives the value it points to, any other value is left as it is.
It is how the store obtains the "raw untyped value" of a slot. -/
def Indirect : Value → Value
  | .ptr v => v
  | v => v

/-- Go's `validateEVMDenom`: type assertion to `string`, then the denomination check. -/
def validateEVMDenom (i : Value) : Except Err Unit :=
  match i with
  | .str denom => ValidateDenom denom
  | _ => .error (.invalidDenomType i.goType)

/-- Go's `validateBool`: type assertion to `bool`. -/
def validateBool (i : Value) : Except Err Unit :=
  match i with
  | .bool _ => .ok ()
  | _ => .error (.invalidParamType i.goType)

/-- The `for _, eip := range eips.EIPs` loop of `validateEIPs`: the first EIP
that is not activateable is reported. -/
def validateEIPsLoop : List Int → Except Err Unit
  | [] => .ok ()
  | eip :: rest =>
    if !ValidEip eip then .error (.eipNotActivateable eip) else validateEIPsLoop rest

/-- Go's `validateEIPs`: type assertion to `V4ExtraEIPs`, then the loop. -/
def validateEIPs (i : Value) : Except Err Unit :=
  match i with
  | .eips eips => validateEIPsLoop eips.EIPs
  | _ => .error (.invalidEIPType i.goType)

/-- Go's `validateChainConfig`: type assertion to `V4ChainConfig`, then its validator. -/
def validateChainConfig (i : Value) : Except Err Unit :=
  match i with
  | .cfg cfg => cfg.Validate
  | _ => .error (.invalidChainConfigType i.goType)

/-- Go's `V4Params.Validate`: basic validation on evm parameters. -/
def V4Params.Validate (p : V4Params) : Except Err Unit :=
  match ValidateDenom p.EvmDenom with
  | .error err => .error err
  | .ok () =>
    match validateEIPs (.eips p.V4ExtraEIPs) with
    | .error err => .error err
    | .ok () => p.V4ChainConfig.Validate

/-- Go's `V4Params.EIPs`: the extra EIPs as a slice of `int`. -/
def V4Params.EIPs (p : V4Params) : List Int :=
  p.V4ExtraEIPs.EIPs.map id

/-- One entry of `ParamSetPairs` (`paramtypes.NewParamSetPair(key, value,
vfn)`): a store key, the value handed in (here always a pointer to a field of
the parameter set), and the validator bound to the key. -/
structure ParamSetPair where
  Key : String
  Value : Ethermint.Value
  ValidatorFn : Ethermint.Value → Except Err Unit

/-- Go's `V4Params.ParamSetPairs`: the parameter set pairs, in declared order.
Each pair holds the pointer `&p.Field`, shown as `ptr` of the field's current
value. -/
def V4Params.ParamSetPairs (p : V4Params) : List ParamSetPair :=
  [ ⟨"EVMDenom", .ptr (.str p.EvmDenom), validateEVMDenom⟩,
    ⟨"EnableCreate", .ptr (.bool p.EnableCreate), validateBool⟩,
    ⟨"EnableCall", .ptr (.bool p.EnableCall), validateBool⟩,
    ⟨"EnableExtraEIPs", .ptr (.eips p.V4ExtraEIPs), validateEIPs⟩,
    ⟨"ChainConfig", .ptr (.cfg p.V4ChainConfig), validateChainConfig⟩,
    ⟨"AllowUnprotectedTxs", .ptr (.bool p.AllowUnprotectedTxs), validateBool⟩ ]

/-- Modelled from the spec: go-ethereum's `isForked` (not under src/): a fork
scheduled at `s` is active at `head` when both are set and `s ≤ head` (the
spec's "at or after" the fork threshold). -/
def isForked (s : Option Int) (head : Option Int) : Bool :=
  match s, head with
  | some s, some head => decide (s ≤ head)
  | _, _ => false

/-- Modelled from the spec: go-ethereum's `ChainConfig.IsLondon` (not under
src/): the London fork is active at block `num`. -/
def ChainConfig.IsLondon (c : ChainConfig) (num : Option Int) : Bool :=
  isForked c.LondonBlock num

/-- Go's `IsLondon`: whether the london hardfork is enabled at `height`
(`big.NewInt(height)` is the exact integer; the pointer `ethConfig` is not nil). -/
def IsLondon (ethConfig : ChainConfig) (height : Int) : Bool :=
  ethConfig.IsLondon (some height)

/-! ## Transaction payloads and `newSignedEthTx` (`state_transition_benchmark_test.go`)

The payload types are go-ethereum's.  A `*big.Int` field is kept as its
integer value (a `nil` pointer is read as zero, as `NewTx` does when it copies
the payload); the recipient `To` stays optional, `none` meaning contract
creation.  Byte strings and addresses are lists of bytes. -/

/-- Modelled from the spec: go-ethereum's `AccessTuple` (not under src/), an
element of the access list, "(address, set of storage keys)". -/
structure AccessTuple where
  Address : List Nat
  StorageKeys : List (List Nat)
  deriving DecidableEq, Repr

/-- Modelled from the spec: go-ethereum's `LegacyTx` (not under src/):
"gasPrice, gasLimit, recipient (optional), value, data, nonce", and the
signature values. -/
structure LegacyTx where
  Nonce : Nat
  GasPrice : Int
  Gas : Nat
  To : Option (List Nat)
  Value : Int
  Data : List Nat
  V : Int
  R : Int
  S : Int
  deriving DecidableEq, Repr

/-- Modelled from the spec: go-ethereum's `AccessListTx` (not under src/):
the fields of Legacy plus a chain id and an access list. -/
structure AccessListTx where
  ChainID : Int
  Nonce : Nat
  GasPrice : Int
  Gas : Nat
  To : Option (List Nat)
  Value : Int
  Data : List Nat
  AccessList : List AccessTuple
  V : Int
  R : Int
  S : Int
  deriving DecidableEq, Repr

/-- Modelled from the spec: go-ethereum's `DynamicFeeTx` (not under src/):
"gasFeeCap, gasTipCap (replacing gasPrice), gasLimit, recipient, value, data,
nonce, access list", a chain id and the signature values. -/
structure DynamicFeeTx where
  ChainID : Int
  Nonce : Nat
  GasTipCap : Int
  GasFeeCap : Int
  Gas : Nat
  To : Option (List Nat)
  Value : Int
  Data : List Nat
  AccessList : List AccessTuple
  V : Int
  R : Int
  S : Int
  deriving DecidableEq, Repr

/-- Modelled from the spec: go-ethereum's `TxData` interface (not under
src/), tagged with the dynamic type of the payload the (non-nil) pointer
refers to.  `other` is a payload of any further type. -/
inductive TxData where
  /-- The `nil` interface. -/
  | nil
  | accessList (tx : AccessListTx)
  | legacy (tx : LegacyTx)
  | dynamicFee (tx : DynamicFeeTx)
  | other (goType : String)
  deriving DecidableEq, Repr

/-- Modelled from the spec: go-ethereum's `Transaction` (not under src/),
reduced to the payload it carries (`inner`). -/
structure Transaction where
  inner : TxData
  deriving DecidableEq, Repr

/-- Modelled from the spec: go-ethereum's `NewTx` (not under src/): a
transaction holding a copy of the payload, "ready for hashing". -/
def NewTx (inner : TxData) : Transaction := ⟨inner⟩

/-- The zero address `common.Address{}`: twenty zero bytes. -/
def zeroAddress : List Nat := List.replicate 20 0

/-- Go's `templateAccessListTx`. -/
def templateAccessListTx : AccessListTx :=
  { ChainID := 0, Nonce := 0, GasPrice := 1, Gas := 21000, To := some zeroAddress,
    Value := 0, Data := [], AccessList := [], V := 0, R := 0, S := 0 }

/-- Go's `templateLegacyTx`. -/
def templateLegacyTx : LegacyTx :=
  { Nonce := 0, GasPrice := 1, Gas := 21000, To := some zeroAddress,
    Value := 0, Data := [], V := 0, R := 0, S := 0 }

/-- Go's `templateDynamicFeeTx`. -/
def templateDynamicFeeTx : DynamicFeeTx :=
  { ChainID := 0, Nonce := 0, GasTipCap := 2, GasFeeCap := 10, Gas := 21000,
    To := some zeroAddress, Value := 0, Data := [], AccessList := [], V := 0, R := 0, S := 0 }

/-- Modelled from the spec: the external signer capability (`keyring.Signer`):
`SignByAddress(addr, msg)` gives a signature or an error (the public key it
also returns is discarded by the caller). -/
structure KeyringSigner where
  SignByAddress : List Nat → List Nat → Except Err (List Nat)

/-- The go-ethereum operations `newSignedEthTx` calls on a transaction, taken
as parameters, for a signing scheme of type `Signer`: `tx.Hash().Bytes()`
and `tx.WithSignature`. -/
structure EthLib (Signer : Type) where
  Hash : Transaction → List Nat
  WithSignature : Transaction → Signer → List Nat → Except Err Transaction

/-- What a call of `newSignedEthTx` leaves behind. -/
structure SignedEthTx where
  /-- The payload the caller's `txData` pointer refers to after the call. -/
  txData : TxData
  /-- The invocations of `SignByAddress`, in order: address and message. -/
  signCalls : List (List Nat × List Nat)
  /-- The returned pair `(*Transaction, error)`. -/
  result : Except Err Transaction

/-- The type switch of `newSignedEthTx`: the nonce is assigned through the
payload pointer and the transaction is built from the payload.  The result
is the payload after the assignment and `ethTx`. -/
def newSignedEthTx_switch (txData : TxData) (nonce : Nat) : Except Err (TxData × Transaction) :=
  match txData with
  | .accessList txData =>
    let txData := { txData with Nonce := nonce }
    .ok (.accessList txData, NewTx (.accessList txData))
  | .legacy txData =>
    let txData := { txData with Nonce := nonce }
    .ok (.legacy txData, NewTx (.legacy txData))
  | .dynamicFee txData =>
    let txData := { txData with Nonce := nonce }
    .ok (.dynamicFee txData, NewTx (.dynamicFee txData))
  | _ => .error .unknownTxType

/-- Go's `newSignedEthTx`: build the transaction, sign its hash with the
keyring, attach the signature. -/
def newSignedEthTx {Signer : Type} (lib : EthLib Signer) (txData : TxData) (nonce : Nat)
    (addr : List Nat) (krSigner : KeyringSigner) (ethSigner : Signer) : SignedEthTx :=
  match newSignedEthTx_switch txData nonce with
  | .error err => ⟨txData, [], .error err⟩
  | .ok (txData, ethTx) =>
    let msg := lib.Hash ethTx
    match krSigner.SignByAddress addr msg with
    | .error err => ⟨txData, [(addr, msg)], .error err⟩
    | .ok sig =>
      match lib.WithSignature ethTx ethSigner sig with
      | .error err => ⟨txData, [(addr, msg)], .error err⟩
      | .ok ethTx => ⟨txData, [(addr, msg)], .ok ethTx⟩

/-! ## The whole-set check as the specification words it -/

/-- Specification-side reading of `validate`: every per-field rule is run in
the declared order (denomination, create flag, call flag, extra capabilities,
chain configuration, unprotected-tx flag) and the first failure is returned. -/
def validateInDeclaredOrder (p : V4Params) : Except Err Unit := do
  validateEVMDenom (.str p.EvmDenom)
  validateBool (.bool p.EnableCreate)
  validateBool (.bool p.EnableCall)
  validateEIPs (.eips p.V4ExtraEIPs)
  validateChainConfig (.cfg p.V4ChainConfig)
  validateBool (.bool p.AllowUnprotectedTxs)

/-! ## Helper lemmas -/

/-- A denomination that matches the syntax passes `ValidateDenom`. -/
theorem validateDenom_of_match {denom : String} (h : matchDenom denom = true) :
    ValidateDenom denom = .ok () := by
  simp [ValidateDenom, h]

/-- A denomination that does not match the syntax gets the denomination error. -/
theorem validateDenom_of_not_match {denom : String} (h : matchDenom denom = false) :
    ValidateDenom denom = .error (.invalidDenom denom) := by
  simp [ValidateDenom, h]

/-- The denomination check passes exactly on the strings that match the syntax. -/
theorem validateDenom_ok_iff (denom : String) :
    ValidateDenom denom = .ok () ↔ matchDenom denom = true := by
  unfold ValidateDenom
  split <;> simp_all

/-- A letter is a character of the denomination syntax. -/
theorem isDenomChar_of_isDenomStart {c : Char} (h : isDenomStart c = true) :
    isDenomChar c = true := by
  simp [isDenomChar, h]

/-- The empty string and any string with a character outside the syntax do not match. -/
theorem matchDenom_false_of_bad_char {denom : String}
    (h : denom.data = [] ∨ ∃ c ∈ denom.data, isDenomChar c = false) :
    matchDenom denom = false := by
  unfold matchDenom
  rcases h with h | ⟨c, hc, hbad⟩
  · rw [h]
  · cases hd : denom.data with
    | nil => rfl
    | cons a rest =>
      rw [hd] at hc
      rcases List.mem_cons.mp hc with rfl | hmem
      · have hs : isDenomStart c = false := by
          cases hst : isDenomStart c with
          | false => rfl
          | true => rw [isDenomChar_of_isDenomStart hst] at hbad; cases hbad
        simp [hs]
      · have hall : rest.all isDenomChar = false := by
          rw [List.all_eq_false]
          exact ⟨c, hmem, by simp [hbad]⟩
        simp [hall]

/-- The EIP loop returns no error exactly when every entry is activateable. -/
theorem validateEIPsLoop_ok_iff (l : List Int) :
    validateEIPsLoop l = .ok () ↔ ∀ x ∈ l, ValidEip x = true := by
  induction l with
  | nil => simp [validateEIPsLoop]
  | cons a rest ih =>
    cases ha : ValidEip a <;> simp [validateEIPsLoop, ha, ih]

/-- The EIP loop reports the first entry, in list order, that is not activateable. -/
theorem validateEIPsLoop_first_bad (l : List Int) (h : ∃ x ∈ l, ValidEip x = false) :
    ∃ pre bad post, l = pre ++ bad :: post ∧ (∀ x ∈ pre, ValidEip x = true) ∧
      ValidEip bad = false ∧ validateEIPsLoop l = .error (.eipNotActivateable bad) := by
  induction l with
  | nil => obtain ⟨x, hx, _⟩ := h; cases hx
  | cons a rest ih =>
    cases ha : ValidEip a with
    | false => exact ⟨[], a, rest, rfl, by simp, ha, by simp [validateEIPsLoop, ha]⟩
    | true =>
      have h2 : ∃ x ∈ rest, ValidEip x = false := by
        obtain ⟨x, hx, hbad⟩ := h
        rcases List.mem_cons.mp hx with rfl | hmem
        · rw [ha] at hbad; cases hbad
        · exact ⟨x, hmem, hbad⟩
      obtain ⟨pre, bad, post, hl, hpre, hb, hres⟩ := ih h2
      refine ⟨a :: pre, bad, post, by simp [hl], ?_, hb, by simp [validateEIPsLoop, ha, hres]⟩
      intro x hx
      rcases List.mem_cons.mp hx with rfl | hmem
      · exact ha
      · exact hpre x hmem

/-- After a valid denomination, `Validate` is the EIP loop followed by the
chain-configuration validator. -/
theorem validate_eq_of_denom_ok {p : V4Params} (hd : ValidateDenom p.EvmDenom = .ok ()) :
    p.Validate = (match validateEIPsLoop p.V4ExtraEIPs.EIPs with
      | .error err => .error err
      | .ok () => p.V4ChainConfig.Validate) := by
  simp [V4Params.Validate, hd, validateEIPs]

/-- An error of the denomination check is the result of `Validate`. -/
theorem validate_of_denom_error {p : V4Params} {e : Err} (hd : ValidateDenom p.EvmDenom = .error e) :
    p.Validate = .error e := by
  simp [V4Params.Validate, hd]

/-- The function `Validate` succeeds exactly when its three checks succeed. -/
theorem validate_ok_iff (p : V4Params) :
    p.Validate = .ok () ↔
      ValidateDenom p.EvmDenom = .ok () ∧ validateEIPs (.eips p.V4ExtraEIPs) = .ok () ∧
        p.V4ChainConfig.Validate = .ok () := by
  unfold V4Params.Validate
  cases hd : ValidateDenom p.EvmDenom with
  | error e => simp
  | ok u =>
    cases he : validateEIPs (.eips p.V4ExtraEIPs) with
    | error e => simp
    | ok u => simp

/-! ## Claims about the parameter set -/

/-- C1: `Validate` applied to `DefaultParams` returns no error: the default
denomination passes the denomination check, every default extra EIP is
activateable, and the default chain configuration is valid. -/
theorem defaultParams_validate_ok :
    DefaultParams.Validate = .ok () ∧
      ValidateDenom DefaultParams.EvmDenom = .ok () ∧
      (∀ eip ∈ DefaultParams.V4ExtraEIPs.EIPs, ValidEip eip = true) ∧
      DefaultParams.V4ChainConfig.Validate = .ok () := by
  decide

/-- C2 (evaluation of the code): `DefaultParams` has the default
denomination, create and call enabled, unprotected transactions disallowed and
the default chain configuration, but its list of extra EIPs is the whole list
`AvailableExtraEIPs` (six entries), not the empty list. -/
theorem defaultParams_extraEIPs_not_empty :
    DefaultParams.EvmDenom = DefaultEVMDenom ∧
      DefaultParams.EnableCreate = true ∧ DefaultParams.EnableCall = true ∧
      DefaultParams.AllowUnprotectedTxs = false ∧
      DefaultParams.V4ChainConfig = DefaultChainConfig ∧
      DefaultParams.V4ExtraEIPs.EIPs = [1344, 1884, 2200, 2929, 3198, 3529] ∧
      DefaultParams.V4ExtraEIPs.EIPs ≠ [] := by
  decide

/-- C3: for every parameter set, `Validate` returns what running the six
per-field rules in declared order and returning the first failure returns.
An invalid denomination gives the denomination error whatever the other fields
hold; otherwise an extra EIP that is not activateable gives an EIP error
whatever the chain configuration holds; otherwise the result is exactly the
result of the chain-configuration validation; and `Validate` succeeds only
when every one of the six rules passes. -/
theorem validate_returns_first_failing_rule (p : V4Params) :
    p.Validate = validateInDeclaredOrder p ∧
      (∀ e : Err, ValidateDenom p.EvmDenom = .error e →
        ∀ q : V4Params, q.EvmDenom = p.EvmDenom → q.Validate = .error e) ∧
      (ValidateDenom p.EvmDenom = .ok () → (∃ x ∈ p.V4ExtraEIPs.EIPs, ValidEip x = false) →
        ∃ bad ∈ p.V4ExtraEIPs.EIPs, ValidEip bad = false ∧
          ∀ cfg : V4ChainConfig,
            V4Params.Validate { p with V4ChainConfig := cfg } = .error (.eipNotActivateable bad)) ∧
      (ValidateDenom p.EvmDenom = .ok () → (∀ x ∈ p.V4ExtraEIPs.EIPs, ValidEip x = true) →
        p.Validate = p.V4ChainConfig.Validate) ∧
      (p.Validate = .ok () →
        validateEVMDenom (.str p.EvmDenom) = .ok () ∧
        validateBool (.bool p.EnableCreate) = .ok () ∧
        validateBool (.bool p.EnableCall) = .ok () ∧
        validateEIPs (.eips p.V4ExtraEIPs) = .ok () ∧
        validateChainConfig (.cfg p.V4ChainConfig) = .ok () ∧
        validateBool (.bool p.AllowUnprotectedTxs) = .ok ()) := by
  refine ⟨?_, ?_, ?_, ?_, ?_⟩
  · unfold V4Params.Validate validateInDeclaredOrder
    simp only [validateEVMDenom, validateBool, validateChainConfig]
    cases ValidateDenom p.EvmDenom with
    | error e => rfl
    | ok u =>
      cases validateEIPs (.eips p.V4ExtraEIPs) with
      | error e => rfl
      | ok u =>
        cases p.V4ChainConfig.Validate with
        | error e => rfl
        | ok u => rfl
  · intro e he q hq
    have hd : ValidateDenom q.EvmDenom = .error e := by rw [hq]; exact he
    exact validate_of_denom_error hd
  · intro hm hbad
    obtain ⟨pre, bad, post, hl, _, hb, hres⟩ := validateEIPsLoop_first_bad _ hbad
    refine ⟨bad, by simp [hl], hb, fun cfg => ?_⟩
    have hd : ValidateDenom (V4Params.EvmDenom { p with V4ChainConfig := cfg }) = .ok () := hm
    rw [validate_eq_of_denom_ok hd]
    simp only [hres]
  · intro hm hall
    rw [validate_eq_of_denom_ok hm, (validateEIPsLoop_ok_iff _).mpr hall]
  · intro hok
    obtain ⟨h1, h2, h3⟩ := (validate_ok_iff p).mp hok
    exact ⟨h1, rfl, rfl, h2, h3, rfl⟩

/-- C3, at a concrete input: a parameter set with a bad denomination, a bad
EIP and a bad chain configuration reports the denomination. -/
theorem validate_returns_first_failing_rule_witness :
    V4Params.Validate
        ⟨"x!", true, true, ⟨[9999]⟩, { DefaultChainConfig with LondonBlock := some (-1) }, false⟩ =
      .error (.invalidDenom "x!") :=
  (validate_returns_first_failing_rule
      ⟨"x!", false, false, ⟨[]⟩, DefaultChainConfig, true⟩).2.1 _ (by decide) _ rfl

/-- C4: for every parameter set whose denomination is empty or contains a
character outside the denomination syntax, `Validate` fails with the
denomination error, and the result is the same for every choice of the flags,
the extra EIPs and the chain configuration. -/
theorem validate_bad_denom (denom : String)
    (h : denom.data = [] ∨ ∃ c ∈ denom.data, isDenomChar c = false)
    (enableCreate enableCall allowUnprotectedTxs : Bool)
    (extraEIPs : V4ExtraEIPs) (config : V4ChainConfig) :
    (NewParams denom allowUnprotectedTxs enableCreate enableCall config extraEIPs).Validate =
      .error (.invalidDenom denom) :=
  validate_of_denom_error (validateDenom_of_not_match (matchDenom_false_of_bad_char h))

/-- C4, at concrete inputs: the empty denomination (with otherwise default
fields) and a denomination with a blank (with an invalid EIP and an invalid
chain configuration). -/
theorem validate_bad_denom_witness :
    ("".data = [] ∨ ∃ c ∈ "".data, isDenomChar c = false) ∧
      (NewParams "" false true true DefaultChainConfig DefaultExtraEIPs).Validate =
        .error (.invalidDenom "") ∧
      (NewParams "a b" true false false { DefaultChainConfig with BerlinBlock := some (-5) }
          ⟨[9999]⟩).Validate = .error (.invalidDenom "a b") :=
  ⟨Or.inl rfl,
    validate_bad_denom "" (Or.inl rfl) true true false DefaultExtraEIPs DefaultChainConfig,
    validate_bad_denom "a b" (Or.inr ⟨Char.ofNat 32, by decide, by decide⟩) false false true _ _⟩

/-- C5: for every parameter set with a valid denomination whose extra-EIP
list has an entry outside the activateable set, `Validate` fails with the EIP
error naming the first such entry in list order, for every chain
configuration; and `validateEIPs` returns no error exactly when every entry
is activateable. -/
theorem validate_first_bad_eip (p : V4Params)
    (hd : ValidateDenom p.EvmDenom = .ok ())
    (hbad : ∃ x ∈ p.V4ExtraEIPs.EIPs, ValidEip x = false) :
    (∃ pre bad post, p.V4ExtraEIPs.EIPs = pre ++ bad :: post ∧
        (∀ x ∈ pre, ValidEip x = true) ∧ ValidEip bad = false ∧
        ∀ cfg : V4ChainConfig,
          V4Params.Validate { p with V4ChainConfig := cfg } =
            .error (.eipNotActivateable bad)) ∧
      (∀ e : V4ExtraEIPs,
        validateEIPs (.eips e) = .ok () ↔ ∀ x ∈ e.EIPs, ValidEip x = true) := by
  constructor
  · obtain ⟨pre, bad, post, hl, hpre, hb, hres⟩ := validateEIPsLoop_first_bad _ hbad
    refine ⟨pre, bad, post, hl, hpre, hb, fun cfg => ?_⟩
    have hd2 : ValidateDenom (V4Params.EvmDenom { p with V4ChainConfig := cfg }) = .ok () := hd
    rw [validate_eq_of_denom_ok hd2]
    simp only [hres]
  · intro e
    exact validateEIPsLoop_ok_iff e.EIPs

/-- C5, at the concrete input of the specification: extra EIPs
`[1344, 9999]` (with otherwise default fields) fail reporting 9999. -/
theorem validate_first_bad_eip_witness :
    ValidateDenom "aphoton" = .ok () ∧
      V4Params.Validate ⟨"aphoton", true, true, ⟨[1344, 9999]⟩, DefaultChainConfig, false⟩ =
        .error (.eipNotActivateable 9999) ∧
      ∃ pre bad post, [1344, 9999] = pre ++ bad :: post ∧
        (∀ x ∈ pre, ValidEip x = true) ∧ ValidEip bad = false ∧
        ∀ cfg : V4ChainConfig,
          V4Params.Validate ⟨"aphoton", true, true, ⟨[1344, 9999]⟩, cfg, false⟩ =
            .error (.eipNotActivateable bad) :=
  ⟨by decide, by decide,
    (validate_first_bad_eip
      ⟨"aphoton", true, true, ⟨[1344, 9999]⟩, DefaultChainConfig, false⟩
      (by decide) ⟨9999, by decide, by decide⟩).1⟩

/-- C6: each slot validator, run on a raw untyped value, rejects every value
that does not have the slot's type: `validateEVMDenom` every non-string,
`validateEIPs` every value that is not a `V4ExtraEIPs`, `validateChainConfig`
every value that is not a `V4ChainConfig`, `validateBool` every non-bool; and
`validateBool` accepts every bool. -/
theorem validators_reject_wrong_type (v : Value) :
    ((∀ s, v ≠ .str s) → validateEVMDenom v = .error (.invalidDenomType v.goType)) ∧
      ((∀ e, v ≠ .eips e) → validateEIPs v = .error (.invalidEIPType v.goType)) ∧
      ((∀ c, v ≠ .cfg c) → validateChainConfig v = .error (.invalidChainConfigType v.goType)) ∧
      ((∀ b, v ≠ .bool b) → validateBool v = .error (.invalidParamType v.goType)) ∧
      (∀ b, validateBool (.bool b) = .ok ()) := by
  refine ⟨?_, ?_, ?_, ?_, fun b => rfl⟩
  · intro h
    cases v with
    | str s => exact absurd rfl (h s)
    | _ => rfl
  · intro h
    cases v with
    | eips e => exact absurd rfl (h e)
    | _ => rfl
  · intro h
    cases v with
    | cfg c => exact absurd rfl (h c)
    | _ => rfl
  · intro h
    cases v with
    | bool b => exact absurd rfl (h b)
    | _ => rfl

/-- C6, at a concrete input: the integer 7 is rejected by all four
validators, and both booleans are accepted by `validateBool`. -/
theorem validators_reject_wrong_type_witness :
    validateEVMDenom (.int64 7) = .error (.invalidDenomType "int64") ∧
      validateEIPs (.int64 7) = .error (.invalidEIPType "int64") ∧
      validateChainConfig (.int64 7) = .error (.invalidChainConfigType "int64") ∧
      validateBool (.int64 7) = .error (.invalidParamType "int64") ∧
      validateBool (.bool true) = .ok () ∧ validateBool (.bool false) = .ok () :=
  have h := validators_reject_wrong_type (.int64 7)
  ⟨h.1 (fun _ hne => Value.noConfusion hne), h.2.1 (fun _ hne => Value.noConfusion hne),
    h.2.2.1 (fun _ hne => Value.noConfusion hne), h.2.2.2.1 (fun _ hne => Value.noConfusion hne),
    h.2.2.2.2 true, h.2.2.2.2 false⟩

/-- The pointer a pair of `ParamSetPairs` holds is itself rejected by the
pair's validator, whose type assertion is to the field's type: the validator
is meant for the value the pointer refers to. -/
theorem paramSetPairs_pointer_rejected (p : V4Params) :
    ∀ pair ∈ p.ParamSetPairs, ∃ e, pair.ValidatorFn pair.Value = .error e := by
  simp [V4Params.ParamSetPairs, validateEVMDenom, validateBool, validateEIPs,
    validateChainConfig]

/-- C7: the whole-set check and the per-slot checks agree: `ParamSetPairs`
binds the six keys in declared order, each to a pointer to its field
(`EvmDenom`, `EnableCreate`, `EnableCall`, `V4ExtraEIPs`, `V4ChainConfig`,
`AllowUnprotectedTxs`), and `Validate` succeeds if and only if the validator
of every pair accepts the current value of the field the pair is bound to,
that is, the dereferenced value of the pair. -/
theorem validate_iff_paramSetPairs (p : V4Params) :
    p.ParamSetPairs.map (fun pair => pair.Key) =
        ["EVMDenom", "EnableCreate", "EnableCall", "EnableExtraEIPs", "ChainConfig",
          "AllowUnprotectedTxs"] ∧
      p.ParamSetPairs.map (fun pair => pair.Value) =
        [.ptr (.str p.EvmDenom), .ptr (.bool p.EnableCreate), .ptr (.bool p.EnableCall),
          .ptr (.eips p.V4ExtraEIPs), .ptr (.cfg p.V4ChainConfig),
          .ptr (.bool p.AllowUnprotectedTxs)] ∧
      (p.Validate = .ok () ↔
        ∀ pair ∈ p.ParamSetPairs, pair.ValidatorFn (Indirect pair.Value) = .ok ()) := by
  refine ⟨rfl, rfl, ?_⟩
  rw [validate_ok_iff]
  simp [V4Params.ParamSetPairs, Indirect, validateEVMDenom, validateBool, validateChainConfig]

/-- C7, at concrete inputs: at the default parameter set every bound
validator accepts the dereferenced value of its pair; with the extra EIP 9999
the whole-set check fails and so does the validator bound to
`EnableExtraEIPs`. -/
theorem validate_iff_paramSetPairs_witness :
    (∀ pair ∈ DefaultParams.ParamSetPairs, pair.ValidatorFn (Indirect pair.Value) = .ok ()) ∧
      ¬ (∀ pair ∈ V4Params.ParamSetPairs
            ⟨"aphoton", true, true, ⟨[9999]⟩, DefaultChainConfig, false⟩,
          pair.ValidatorFn (Indirect pair.Value) = .ok ()) :=
  ⟨(validate_iff_paramSetPairs DefaultParams).2.2.mp (by decide),
    fun h => absurd
      ((validate_iff_paramSetPairs
        ⟨"aphoton", true, true, ⟨[9999]⟩, DefaultChainConfig, false⟩).2.2.mpr h)
      (by decide)⟩

/-! ## Claims about `newSignedEthTx` -/

/-- C8: for every payload whose variant is none of AccessList, Legacy or
DynamicFee, `newSignedEthTx` returns the unknown-type error and no
transaction, and `SignByAddress` is never invoked, for every nonce, address,
keyring and signing scheme. -/
theorem newSignedEthTx_unknown_variant {Signer : Type} (lib : EthLib Signer) (txData : TxData)
    (hA : ∀ tx, txData ≠ .accessList tx) (hL : ∀ tx, txData ≠ .legacy tx)
    (hD : ∀ tx, txData ≠ .dynamicFee tx)
    (nonce : Nat) (addr : List Nat) (krSigner : KeyringSigner) (ethSigner : Signer) :
    (newSignedEthTx lib txData nonce addr krSigner ethSigner).result = .error .unknownTxType ∧
      (newSignedEthTx lib txData nonce addr krSigner ethSigner).signCalls = [] := by
  cases txData with
  | accessList tx => exact absurd rfl (hA tx)
  | legacy tx => exact absurd rfl (hL tx)
  | dynamicFee tx => exact absurd rfl (hD tx)
  | nil => exact ⟨rfl, rfl⟩
  | other t => exact ⟨rfl, rfl⟩

/-- C8, at a concrete input: a payload of a further type, with a keyring
that would sign anything, gives the error and an empty list of signer calls. -/
theorem newSignedEthTx_unknown_variant_witness :
    (newSignedEthTx (⟨fun _ => [1], fun tx _ _ => .ok tx⟩ : EthLib Unit)
        (.other "*types.BlobTx") 5 [7] ⟨fun _ _ => .ok [2]⟩ ()).result = .error .unknownTxType ∧
      (newSignedEthTx (⟨fun _ => [1], fun tx _ _ => .ok tx⟩ : EthLib Unit)
        (.other "*types.BlobTx") 5 [7] ⟨fun _ _ => .ok [2]⟩ ()).signCalls = [] :=
  newSignedEthTx_unknown_variant _ (.other "*types.BlobTx")
    (fun _ h => TxData.noConfusion h) (fun _ h => TxData.noConfusion h)
    (fun _ h => TxData.noConfusion h) 5 [7] _ ()

/-- C9: for each of the three variants and every nonce `n`, the build step
of `newSignedEthTx` sets the payload's nonce to `n` and leaves every other
field of the payload unchanged, and the transaction whose hash is handed to
the signer is the one built from exactly that payload. -/
theorem newSignedEthTx_sets_only_nonce {Signer : Type} (lib : EthLib Signer) (n : Nat)
    (addr : List Nat) (krSigner : KeyringSigner) (ethSigner : Signer) :
    (∀ tx : LegacyTx, ∃ tx' : LegacyTx,
        newSignedEthTx_switch (.legacy tx) n = .ok (.legacy tx', ⟨.legacy tx'⟩) ∧
        (newSignedEthTx lib (.legacy tx) n addr krSigner ethSigner).txData = .legacy tx' ∧
        (newSignedEthTx lib (.legacy tx) n addr krSigner ethSigner).signCalls =
          [(addr, lib.Hash ⟨.legacy tx'⟩)] ∧
        tx'.Nonce = n ∧ tx'.GasPrice = tx.GasPrice ∧ tx'.Gas = tx.Gas ∧ tx'.To = tx.To ∧
        tx'.Value = tx.Value ∧ tx'.Data = tx.Data ∧
        tx'.V = tx.V ∧ tx'.R = tx.R ∧ tx'.S = tx.S) ∧
      (∀ tx : AccessListTx, ∃ tx' : AccessListTx,
        newSignedEthTx_switch (.accessList tx) n = .ok (.accessList tx', ⟨.accessList tx'⟩) ∧
        (newSignedEthTx lib (.accessList tx) n addr krSigner ethSigner).txData =
          .accessList tx' ∧
        (newSignedEthTx lib (.accessList tx) n addr krSigner ethSigner).signCalls =
          [(addr, lib.Hash ⟨.accessList tx'⟩)] ∧
        tx'.Nonce = n ∧ tx'.ChainID = tx.ChainID ∧ tx'.GasPrice = tx.GasPrice ∧
        tx'.Gas = tx.Gas ∧ tx'.To = tx.To ∧ tx'.Value = tx.Value ∧ tx'.Data = tx.Data ∧
        tx'.AccessList = tx.AccessList ∧ tx'.V = tx.V ∧ tx'.R = tx.R ∧ tx'.S = tx.S) ∧
      (∀ tx : DynamicFeeTx, ∃ tx' : DynamicFeeTx,
        newSignedEthTx_switch (.dynamicFee tx) n = .ok (.dynamicFee tx', ⟨.dynamicFee tx'⟩) ∧
        (newSignedEthTx lib (.dynamicFee tx) n addr krSigner ethSigner).txData =
          .dynamicFee tx' ∧
        (newSignedEthTx lib (.dynamicFee tx) n addr krSigner ethSigner).signCalls =
          [(addr, lib.Hash ⟨.dynamicFee tx'⟩)] ∧
        tx'.Nonce = n ∧ tx'.ChainID = tx.ChainID ∧ tx'.GasTipCap = tx.GasTipCap ∧
        tx'.GasFeeCap = tx.GasFeeCap ∧ tx'.Gas = tx.Gas ∧ tx'.To = tx.To ∧
        tx'.Value = tx.Value ∧ tx'.Data = tx.Data ∧ tx'.AccessList = tx.AccessList ∧
        tx'.V = tx.V ∧ tx'.R = tx.R ∧ tx'.S = tx.S) := by
  refine ⟨fun tx => ⟨{ tx with Nonce := n }, rfl, ?_, ?_, rfl, rfl, rfl, rfl, rfl, rfl, rfl, rfl, rfl⟩,
    fun tx => ⟨{ tx with Nonce := n }, rfl, ?_, ?_,
      rfl, rfl, rfl, rfl, rfl, rfl, rfl, rfl, rfl, rfl, rfl⟩,
    fun tx => ⟨{ tx with Nonce := n }, rfl, ?_, ?_,
      rfl, rfl, rfl, rfl, rfl, rfl, rfl, rfl, rfl, rfl, rfl, rfl⟩⟩ <;>
  · simp only [newSignedEthTx, newSignedEthTx_switch, NewTx]
    cases krSigner.SignByAddress addr _ with
    | error e => rfl
    | ok sig =>
      simp only []
      cases lib.WithSignature _ ethSigner sig with
      | error e => rfl
      | ok t => rfl

/-- C9, at the concrete input of the specification: the Legacy template
(gas price 1, gas 21000, zero-address recipient, value 0, empty data) with
nonce 5 yields the same fields with nonce 5. -/
theorem newSignedEthTx_sets_only_nonce_witness :
    newSignedEthTx_switch (.legacy templateLegacyTx) 5 =
        .ok (.legacy ⟨5, 1, 21000, some zeroAddress, 0, [], 0, 0, 0⟩,
          ⟨.legacy ⟨5, 1, 21000, some zeroAddress, 0, [], 0, 0, 0⟩⟩) ∧
      ∃ tx' : LegacyTx,
        newSignedEthTx_switch (.legacy templateLegacyTx) 5 = .ok (.legacy tx', ⟨.legacy tx'⟩) ∧
        tx'.Nonce = 5 ∧ tx'.GasPrice = 1 ∧ tx'.Gas = 21000 ∧ tx'.To = some zeroAddress ∧
        tx'.Value = 0 ∧ tx'.Data = [] :=
  ⟨by decide,
    match (newSignedEthTx_sets_only_nonce (⟨fun _ => [], fun tx _ _ => .ok tx⟩ : EthLib Unit) 5 []
      ⟨fun _ _ => .ok []⟩ ()).1 templateLegacyTx with
    | ⟨tx', h, _, _, h1, h2, h3, h4, h5, h6, _⟩ => ⟨tx', h, h1, h2, h3, h4, h5, h6⟩⟩

/-! ## Claims about the fork gate -/

/-- C10: `IsLondon` is true exactly when the configuration has a London fork
height `L` with `L ≤ height`; it is monotone in the height; and it is false at
every height when no London height is configured. -/
theorem isLondon_iff_and_monotone (cfg : ChainConfig) (height height' : Int) :
    (IsLondon cfg height = true ↔ ∃ L, cfg.LondonBlock = some L ∧ L ≤ height) ∧
      (height ≤ height' → IsLondon cfg height = true → IsLondon cfg height' = true) ∧
      (cfg.LondonBlock = none → IsLondon cfg height = false) := by
  unfold IsLondon ChainConfig.IsLondon isForked
  cases cfg.LondonBlock with
  | none => simp
  | some L =>
    simp only [decide_eq_true_eq, Option.some.injEq, exists_eq_left', false_implies,
      and_true, true_and, reduceCtorEq]
    exact fun hle hL => le_trans hL hle

/-- C10, at a concrete input: with London scheduled at height 10, the gate is
closed at 9, open at 10 and stays open at 11. -/
theorem isLondon_iff_and_monotone_witness :
    IsLondon ({ DefaultChainConfig.EthereumConfig none with LondonBlock := some 10 }) 9 = false ∧
      IsLondon ({ DefaultChainConfig.EthereumConfig none with LondonBlock := some 10 }) 10 = true ∧
      IsLondon ({ DefaultChainConfig.EthereumConfig none with LondonBlock := some 10 }) 11 = true :=
  ⟨by decide, by decide,
    (isLondon_iff_and_monotone
      ({ DefaultChainConfig.EthereumConfig none with LondonBlock := some 10 }) 10 11).2.1
      (by decide) (by decide)⟩

end Ethermint
